import Mathlib

/-!
Shallow embedding of the sniproxy connection core (src/connection.c) and the
listener stanza of the configuration builder, together with proofs of the
specified properties of the per-connection state machine, its watcher
management, the connection registry, and the shutdown path.

External collaborators (the libev reactor, the socket syscalls, the protocol
parsers and the routing table) are modelled as inputs delivered to each
callback: the embedding tracks exactly the state that src/connection.c
mutates, and every `assert` of the source is modelled as an abort outcome.
-/

namespace Sniproxy

/-- Connection states, from connection.h as used throughout connection.c. -/
inductive ConnState
  | NEW
  | ACCEPTED
  | PARSED
  | RESOLVED
  | CONNECTED
  | SERVER_CLOSED
  | CLIENT_CLOSED
  | CLOSED
deriving DecidableEq, Repr

/-- Modelled from the spec: buffer.c is not under src/.  A buffer is a byte
ring of fixed capacity; only the pending-byte count `len` and the capacity
`size` are observable to connection.c. -/
structure Buffer where
  len : Nat
  size : Nat
deriving DecidableEq, Repr

/-- Modelled from the spec: pending bytes in the buffer (buffer_len). -/
def buffer_len (b : Buffer) : Nat := b.len

/-- Modelled from the spec: free bytes in the buffer (buffer_room). -/
def buffer_room (b : Buffer) : Nat := b.size - b.len

/-- Modelled from the spec: effect of buffer_recv reading `n` bytes from the
socket into the buffer (a single read sized to the current room). -/
def buffer_fill (b : Buffer) (n : Nat) : Buffer :=
  { b with len := min (b.len + n) b.size }

/-- Modelled from the spec: effect of buffer_send writing `n` bytes of the
pending prefix to the socket. -/
def buffer_drain (b : Buffer) (n : Nat) : Buffer :=
  { b with len := b.len - n }

/-- libev readiness event bit for readable (EV_READ). -/
def EV_READ : Nat := 1

/-- libev readiness event bit for writable (EV_WRITE). -/
def EV_WRITE : Nat := 2

/-- An ev_io watcher as visible to connection.c: whether it is active
(ev_is_active) and its registered event set (w->events). -/
structure Watcher where
  active : Bool
  events : Nat
deriving DecidableEq, Repr

/-- A Connection of connection.c.  `clientFdOpen` / `serverFdOpen` track
whether each half's descriptor is actually open (set at accept()/connect(),
cleared at close()); the state machine is supposed to keep them in sync with
the state tag.  `fallback` models `listener->fallback_address != NULL` and
`id` stands for the pointer identity of the C allocation. -/
structure Connection where
  state : ConnState
  clientBuf : Buffer
  serverBuf : Buffer
  clientWatcher : Watcher
  serverWatcher : Watcher
  clientFdOpen : Bool
  serverFdOpen : Bool
  hostname : Option String
  fallback : Bool
  id : Nat
deriving DecidableEq, Repr

/-- connection.c: client_socket_open — the client socket is open iff the
state is one of ACCEPTED, PARSED, RESOLVED, CONNECTED, SERVER_CLOSED. -/
def client_socket_open (con : Connection) : Bool :=
  con.state == .ACCEPTED ||
    con.state == .PARSED ||
    con.state == .RESOLVED ||
    con.state == .CONNECTED ||
    con.state == .SERVER_CLOSED

/-- connection.c: server_socket_open — the server socket is open iff the
state is CONNECTED or CLIENT_CLOSED. -/
def server_socket_open (con : Connection) : Bool :=
  con.state == .CONNECTED || con.state == .CLIENT_CLOSED

/-- connection.c: close_client_socket.  Asserts state is neither CLOSED nor
CLIENT_CLOSED (modelled as `none`), stops the client watcher, closes the
descriptor, and picks the next state from the previous one. -/
def close_client_socket (con : Connection) : Option Connection :=
  if con.state == .CLOSED || con.state == .CLIENT_CLOSED then
    none
  else
    some { con with
      clientWatcher := { con.clientWatcher with active := false },
      clientFdOpen := false,
      state :=
        if con.state == .SERVER_CLOSED || con.state == .ACCEPTED ||
            con.state == .PARSED || con.state == .RESOLVED then
          .CLOSED
        else
          .CLIENT_CLOSED }

/-- connection.c: close_server_socket.  Asserts state is neither CLOSED nor
SERVER_CLOSED, stops the server watcher, closes the descriptor, and picks
the next state from the previous one. -/
def close_server_socket (con : Connection) : Option Connection :=
  if con.state == .CLOSED || con.state == .SERVER_CLOSED then
    none
  else
    some { con with
      serverWatcher := { con.serverWatcher with active := false },
      serverFdOpen := false,
      state :=
        if con.state == .CLIENT_CLOSED then .CLOSED else .SERVER_CLOSED }

/-- connection.c: close_connection, with each C assert modelled as `none`:
state must not be NEW; the server half is closed first when it is open, the
client half next when it is open, and the result must be CLOSED. -/
def close_connection (con : Connection) : Option Connection :=
  if con.state == .NEW then
    none
  else
    match
      (if con.state == .CONNECTED || con.state == .CLIENT_CLOSED then
        close_server_socket con
      else
        some con) with
    | none => none
    | some c1 =>
      if !(c1.state == .ACCEPTED || c1.state == .PARSED ||
            c1.state == .RESOLVED || c1.state == .SERVER_CLOSED ||
            c1.state == .CLOSED) then
        none
      else
        match
          (if c1.state == .ACCEPTED || c1.state == .PARSED ||
              c1.state == .RESOLVED || c1.state == .SERVER_CLOSED then
            close_client_socket c1
          else
            some c1) with
        | none => none
        | some c2 => if c2.state == .CLOSED then some c2 else none

/-- connection.c: free_connections — pop each Connection off the registry,
close_connection it, and free it.  Returns the closed connections in order
together with the final registry; `none` models an assert failure. -/
def free_connections : List Connection → Option (List Connection × List Connection)
  | [] => some ([], [])
  | con :: rest =>
    match close_connection con with
    | none => none
    | some c' =>
      match free_connections rest with
      | none => none
      | some (fs, reg) => some (c' :: fs, reg)

/-- connection.c: parse_client_request, with the parser's verdict on the
peeked bytes supplied as `result` (its return value) and `hostname` (its out
parameter).  -1 is incomplete, -2 no hostname, below -2 malformed. -/
def parse_client_request (con : Connection) (result : Int)
    (hostname : Option String) : Option Connection :=
  if result == -1 then
    some con
  else if result == -2 && !con.fallback then
    close_client_socket con
  else if result < -2 && !con.fallback then
    close_client_socket con
  else
    some { con with hostname := hostname, state := .PARSED }

/-- connection.c: resolve_server_address, with the routing verdict supplied
as `lookupIsHostname` (address_is_hostname on the looked-up address). -/
def resolve_server_address (con : Connection) (lookupIsHostname : Bool) :
    Option Connection :=
  if lookupIsHostname then
    close_client_socket con
  else
    some { con with state := .RESOLVED }

/-- Outcome of connect(2) in initiate_server_connect: success, EINPROGRESS,
or any other error. -/
inductive ConnectRes
  | success
  | einprogress
  | fatalErr
deriving DecidableEq, Repr

/-- connection.c: initiate_server_connect.  socket() failure returns with the
connection unchanged; a connect error other than EINPROGRESS closes the new
descriptor and moves to SERVER_CLOSED; otherwise the server watcher is armed
for EV_WRITE and the state becomes CONNECTED. -/
def initiate_server_connect (con : Connection) (socketOk : Bool)
    (r : ConnectRes) : Connection :=
  if !socketOk then
    con
  else
    match r with
    | .fatalErr => { con with state := .SERVER_CLOSED }
    | _ =>
      { con with
        serverWatcher := { active := true, events := EV_WRITE },
        serverFdOpen := true,
        state := .CONNECTED }

/-- connection.c: the desired event set computed inside reactivate_watcher:
EV_READ iff the inbound buffer has room, EV_WRITE iff the outbound buffer
has pending bytes. -/
def desired_events (input_buffer output_buffer : Buffer) : Nat :=
  (if buffer_room input_buffer != 0 then EV_READ else 0) |||
    (if buffer_len output_buffer != 0 then EV_WRITE else 0)

/-- connection.c: reactivate_watcher — stop an active watcher whose desired
set is empty, stop/re-set/restart it when the desired set differs from the
registered one, and start an inactive watcher whose desired set is
non-empty. -/
def reactivate_watcher (w : Watcher) (input_buffer output_buffer : Buffer) :
    Watcher :=
  let events := desired_events input_buffer output_buffer
  if w.active then
    if events == 0 then
      { w with active := false }
    else if events != w.events then
      { active := true, events := events }
    else
      w
  else if events != 0 then
    { active := true, events := events }
  else
    w

/-- Result of one read from the client/server socket (buffer_recv): `data n`
stands for a positive return of `n + 1` bytes, `eof` for a return of 0,
and the error cases for a negative return with temporary or fatal errno. -/
inductive RecvRes
  | data (n : Nat)
  | eof
  | tempErr
  | fatalErr
deriving DecidableEq, Repr

/-- Result of one write to the socket (buffer_send): `sent n` bytes written,
or a negative return with temporary or fatal errno. -/
inductive SendRes
  | sent (n : Nat)
  | tempErr
  | fatalErr
deriving DecidableEq, Repr

/-- The external world of one connection_cb invocation: the outcomes of the
socket reads/writes and of the parser, routing and connect collaborators. -/
structure Env where
  recv : RecvRes
  send : SendRes
  parseResult : Int
  parseHostname : Option String
  lookupIsHostname : Bool
  socketOk : Bool
  connectRes : ConnectRes
deriving DecidableEq, Repr

/-- connection.c connection_cb: input buffer of the half whose watcher
fired (`is_client ? con->client.buffer : con->server.buffer`). -/
def input_buffer (is_client : Bool) (con : Connection) : Buffer :=
  if is_client then con.clientBuf else con.serverBuf

/-- connection.c connection_cb: output buffer of the half whose watcher
fired (`is_client ? con->server.buffer : con->client.buffer`). -/
def output_buffer (is_client : Bool) (con : Connection) : Buffer :=
  if is_client then con.serverBuf else con.clientBuf

/-- Store back the input buffer of the serviced half. -/
def set_input_buffer (is_client : Bool) (con : Connection) (b : Buffer) :
    Connection :=
  if is_client then { con with clientBuf := b } else { con with serverBuf := b }

/-- Store back the output buffer of the serviced half. -/
def set_output_buffer (is_client : Bool) (con : Connection) (b : Buffer) :
    Connection :=
  if is_client then { con with serverBuf := b } else { con with clientBuf := b }

/-- connection.c connection_cb: the close function of the serviced half
(`is_client ? close_client_socket : close_server_socket`). -/
def close_socket_of (is_client : Bool) : Connection → Option Connection :=
  if is_client then close_client_socket else close_server_socket

/-- The running state of one connection_cb invocation: the connection, the
(possibly cleared) revents word, whether buffer_send has been attempted, and
whether a C assert has fired (aborting the process). -/
structure CbS where
  con : Connection
  rev : Nat
  sent : Bool
  aborted : Bool
deriving DecidableEq, Repr

/-- connection_cb receive phase: if EV_READ is set and the input buffer has
room, buffer_recv is issued; EOF or a fatal error closes this half's socket
and clears revents so no send is attempted afterwards. -/
def recvStep (is_client : Bool) (r : RecvRes) (s : CbS) : CbS :=
  if s.rev &&& EV_READ != 0 && buffer_room (input_buffer is_client s.con) != 0 then
    match r with
    | .data n =>
      let b := buffer_fill (input_buffer is_client s.con) (n + 1)
      { s with con := set_input_buffer is_client s.con b }
    | .tempErr => s
    | .eof =>
      match close_socket_of is_client s.con with
      | some c' => { s with con := c', rev := 0 }
      | none => { s with aborted := true }
    | .fatalErr =>
      match close_socket_of is_client s.con with
      | some c' => { s with con := c', rev := 0 }
      | none => { s with aborted := true }
  else
    s

/-- connection_cb transmit phase: if EV_WRITE is (still) set and the output
buffer has pending bytes, buffer_send is issued; a fatal error closes this
half's socket. -/
def sendStep (is_client : Bool) (r : SendRes) (s : CbS) : CbS :=
  if s.aborted then s
  else if s.rev &&& EV_WRITE != 0 && buffer_len (output_buffer is_client s.con) != 0 then
    match r with
    | .sent n =>
      let b := buffer_drain (output_buffer is_client s.con) n
      { s with con := set_output_buffer is_client s.con b, sent := true }
    | .tempErr => { s with sent := true }
    | .fatalErr =>
      match close_socket_of is_client s.con with
      | some c' => { s with con := c', sent := true }
      | none => { s with sent := true, aborted := true }
  else
    s

/-- connection_cb line 225: `if (is_client && con->state == ACCEPTED)` invoke
parse_client_request. -/
def parseStep (is_client : Bool) (env : Env) (s : CbS) : CbS :=
  if !s.aborted && is_client && s.con.state == .ACCEPTED then
    match parse_client_request s.con env.parseResult env.parseHostname with
    | some c' => { s with con := c' }
    | none => { s with aborted := true }
  else s

/-- connection_cb line 227: `if (is_client && con->state == PARSED)` invoke
resolve_server_address. -/
def resolveStep (is_client : Bool) (env : Env) (s : CbS) : CbS :=
  if !s.aborted && is_client && s.con.state == .PARSED then
    match resolve_server_address s.con env.lookupIsHostname with
    | some c' => { s with con := c' }
    | none => { s with aborted := true }
  else s

/-- connection_cb line 229: `if (is_client && con->state == RESOLVED)` invoke
initiate_server_connect. -/
def connectStep (is_client : Bool) (env : Env) (s : CbS) : CbS :=
  if !s.aborted && is_client && s.con.state == .RESOLVED then
    { s with con := initiate_server_connect s.con env.socketOk env.connectRes }
  else s

/-- connection_cb state-specific logic: parse in ACCEPTED, resolve in
PARSED, connect in RESOLVED, client side only, re-checking the state after
each step so one callback can traverse several stages. -/
def stateStep (is_client : Bool) (env : Env) (s : CbS) : CbS :=
  connectStep is_client env (resolveStep is_client env (parseStep is_client env s))

/-- connection_cb line 233: in SERVER_CLOSED with the server buffer flushed,
close the client socket. -/
def drainClientStep (s : CbS) : CbS :=
  if !s.aborted && s.con.state == .SERVER_CLOSED &&
      buffer_len s.con.serverBuf == 0 then
    match close_client_socket s.con with
    | some c' => { s with con := c' }
    | none => { s with aborted := true }
  else s

/-- connection_cb line 235: in CLIENT_CLOSED with the client buffer flushed,
close the server socket. -/
def drainServerStep (s : CbS) : CbS :=
  if !s.aborted && s.con.state == .CLIENT_CLOSED &&
      buffer_len s.con.clientBuf == 0 then
    match close_server_socket s.con with
    | some c' => { s with con := c' }
    | none => { s with aborted := true }
  else s

/-- connection_cb drain step: in SERVER_CLOSED with the server buffer empty,
close the client socket; in CLIENT_CLOSED with the client buffer empty,
close the server socket. -/
def drainStep (s : CbS) : CbS :=
  drainServerStep (drainClientStep s)

/-- connection_cb watcher reactivation: each half whose socket is still open
has its watcher recomputed from the current buffers. -/
def reactivateAll (con : Connection) : Connection :=
  let con :=
    if client_socket_open con then
      { con with clientWatcher :=
          reactivate_watcher con.clientWatcher con.clientBuf con.serverBuf }
    else con
  if server_socket_open con then
    { con with serverWatcher :=
        reactivate_watcher con.serverWatcher con.serverBuf con.clientBuf }
  else con

/-- The three asserts at the end of connection_cb: a closed half's watcher is
inactive, and at least one watcher is active with a non-empty event set. -/
def cbAsserts (con : Connection) : Bool :=
  (client_socket_open con || !con.clientWatcher.active) &&
    (server_socket_open con || !con.serverWatcher.active) &&
    ((con.clientWatcher.active && con.clientWatcher.events != 0) ||
      (con.serverWatcher.active && con.serverWatcher.events != 0))

/-- Outcome of one connection_cb invocation: `abort` models a fired C assert
(carrying the connection at that moment), `freed` the CLOSED path (removed
from the registry and freed), `live` the normal return after the connection
is moved to the registry head.  Each carries whether buffer_send was
attempted during the callback. -/
inductive CbRes
  | abort (con : Connection) (sent : Bool)
  | freed (con : Connection) (sent : Bool)
  | live (con : Connection) (sent : Bool)
deriving DecidableEq, Repr

/-- The connection carried by a callback outcome. -/
def CbRes.con : CbRes → Connection
  | .abort c _ => c
  | .freed c _ => c
  | .live c _ => c

/-- Whether buffer_send was attempted during the callback. -/
def CbRes.sendAttempted : CbRes → Bool
  | .abort _ s => s
  | .freed _ s => s
  | .live _ s => s

/-- connection.c: connection_cb — receive, transmit, state logic, drain
closes, free on CLOSED, watcher reactivation and the final asserts. -/
def connection_cb (con : Connection) (is_client : Bool) (revents : Nat)
    (env : Env) : CbRes :=
  let s := drainStep (stateStep is_client env
    (sendStep is_client env.send
      (recvStep is_client env.recv ⟨con, revents, false, false⟩)))
  if s.aborted then
    .abort s.con s.sent
  else if s.con.state == .CLOSED then
    .freed s.con s.sent
  else
    let c' := reactivateAll s.con
    if cbAsserts c' then .live c' s.sent else .abort c' s.sent

/-- connection.c: accept_connection — the Connection handed to the reactor
after a successful accept: state ACCEPTED, empty buffers, client watcher
started for EV_READ, client descriptor open. -/
def accept_connection (bufSize : Nat) (fallback : Bool) (id : Nat) :
    Connection :=
  { state := .ACCEPTED,
    clientBuf := { len := 0, size := bufSize },
    serverBuf := { len := 0, size := bufSize },
    clientWatcher := { active := true, events := EV_READ },
    serverWatcher := { active := false, events := 0 },
    clientFdOpen := true,
    serverFdOpen := false,
    hostname := none,
    fallback := fallback,
    id := id }

/-- connection.c: accept_connection inserts the new Connection at the head
of the registry (TAILQ_INSERT_HEAD). -/
def accept_connection_registry (regs : List Connection) (bufSize : Nat)
    (fallback : Bool) (id : Nat) : List Connection :=
  accept_connection bufSize fallback id :: regs

/-- The registry effect of one connection_cb run on the connection sitting
between `pre` and `post`: on the CLOSED path it is removed (TAILQ_REMOVE and
free), otherwise it is moved to the head (TAILQ_REMOVE then
TAILQ_INSERT_HEAD); `none` models an assert abort. -/
def connection_cb_registry (pre post : List Connection) (con : Connection)
    (is_client : Bool) (revents : Nat) (env : Env) :
    Option (List Connection) :=
  match connection_cb con is_client revents env with
  | .abort _ _ => none
  | .freed _ _ => some (pre ++ post)
  | .live c' _ => some (c' :: (pre ++ post))

/-- The fd/state consistency invariant of the spec: each half's descriptor
is open exactly when the source's state predicate says so. -/
def SockInv (con : Connection) : Prop :=
  con.clientFdOpen = client_socket_open con ∧
    con.serverFdOpen = server_socket_open con

instance (con : Connection) : Decidable (SockInv con) := by
  unfold SockInv; infer_instance

/-! ### Configuration builder (the listener stanza of the config collaborator) -/

/-- Listener protocols, from config.h. -/
inductive Protocol
  | TLS
  | HTTP
deriving DecidableEq, Repr

/-- The raw listener stanza accumulated by the config parser
(struct ListenerConfig). -/
structure ListenerConfig where
  address : Option String
  port : Option String
  table_name : Option String
  protocol : Option String
deriving DecidableEq, Repr

/-- The fields of struct Listener that end_listener derives from the raw
stanza (the bound address is produced by parse_address, out of scope). -/
structure Listener where
  protocol : Protocol
  table_name : Option String
deriving DecidableEq, Repr

/-- tolower(3) on one character, as a code point: ASCII letters A-Z are
folded to a-z, everything else kept. -/
def fold_case (c : Char) : Nat :=
  if 65 ≤ c.toNat ∧ c.toNat ≤ 90 then c.toNat + 32 else c.toNat

/-- strcasecmp(a, b) == 0: character-wise case-insensitive equality. -/
def strcaseeq (a b : String) : Bool :=
  a.data.map fold_case == b.data.map fold_case

/-- end_listener: the listener's protocol defaults to TLS and becomes HTTP
exactly when the stanza supplied a protocol value case-insensitively equal
to "http". -/
def end_listener (lc : ListenerConfig) : Listener :=
  { table_name := lc.table_name,
    protocol :=
      match lc.protocol with
      | some s => if strcaseeq s "http" then .HTTP else .TLS
      | none => .TLS }

/-! ### C9: default listener protocol -/

/-- C9: for every listener stanza, the resulting listener's protocol is TLS
unless the stanza supplies a protocol value case-insensitively equal to
"http", in which case it is HTTP; a stanza with no protocol directive
yields a TLS listener. -/
theorem C9_listener_protocol_default (lc : ListenerConfig) :
    ((end_listener lc).protocol = .HTTP ↔
      ∃ s, lc.protocol = some s ∧ strcaseeq s "http" = true) ∧
    (lc.protocol = none → (end_listener lc).protocol = .TLS) := by
  constructor
  · match hp : lc.protocol with
    | none => simp [end_listener, hp]
    | some s =>
      simp only [end_listener, hp, Option.some.injEq]
      by_cases hc : strcaseeq s "http" = true
      · simp [hc]
      · simp [hc]
  · intro hp
    simp [end_listener, hp]

/-- C9 witness: a stanza with no protocol directive yields a TLS listener. -/
theorem C9_listener_protocol_default_witness :
    (end_listener ⟨none, none, none, none⟩).protocol = .TLS :=
  (C9_listener_protocol_default ⟨none, none, none, none⟩).2 rfl

/-! ### C4: parser result dispositions in ACCEPTED -/

/-- C4: in state ACCEPTED, a parser result of -1 changes nothing; a result
of -2 or below -2 closes the client when there is no fallback address, and
with a fallback the connection proceeds to PARSED; a positive or zero
result sets the hostname and moves the state to PARSED. -/
theorem C4_parse_client_request_dispositions (con : Connection) (result : Int)
    (hostname : Option String) (hst : con.state = .ACCEPTED) :
    (result = -1 → parse_client_request con result hostname = some con) ∧
    (result ≤ -2 → con.fallback = false →
      ∃ c', parse_client_request con result hostname = some c' ∧
        c'.state = .CLOSED ∧ c'.clientFdOpen = false ∧
        c'.clientWatcher.active = false) ∧
    (result ≤ -2 → con.fallback = true →
      ∃ c', parse_client_request con result hostname = some c' ∧
        c'.state = .PARSED ∧ c'.hostname = hostname) ∧
    (0 ≤ result →
      ∃ c', parse_client_request con result hostname = some c' ∧
        c'.state = .PARSED ∧ c'.hostname = hostname) := by
  refine ⟨?_, ?_, ?_, ?_⟩
  · intro h
    simp [parse_client_request, h]
  · intro h hf
    have heq : parse_client_request con result hostname =
        close_client_socket con := by
      unfold parse_client_request
      by_cases h2 : result = -2
      · subst h2
        simp [hf]
      · have h3 : result < -2 := by omega
        have h4 : result ≠ -1 := by omega
        simp [hf, h2, h3, h4]
    have hcc : close_client_socket con = some { con with
        clientWatcher := { con.clientWatcher with active := false },
        clientFdOpen := false, state := .CLOSED } := by
      simp [close_client_socket, hst]
    exact ⟨_, heq.trans hcc, rfl, rfl, rfl⟩
  · intro h hf
    have heq : parse_client_request con result hostname =
        some { con with hostname := hostname, state := .PARSED } := by
      unfold parse_client_request
      by_cases h2 : result = -2
      · subst h2
        simp [hf]
      · have h3 : result < -2 := by omega
        have h4 : result ≠ -1 := by omega
        simp [hf, h2, h3, h4]
    exact ⟨_, heq, rfl, rfl⟩
  · intro h
    have h2 : result ≠ -2 := by omega
    have h3 : ¬result < -2 := by omega
    have h4 : result ≠ -1 := by omega
    have heq : parse_client_request con result hostname =
        some { con with hostname := hostname, state := .PARSED } := by
      unfold parse_client_request
      simp [h2, h3, h4]
    exact ⟨_, heq, rfl, rfl⟩

/-- C4 witness: at a concrete ACCEPTED connection with no fallback, a
malformed parse result (-3) closes the client. -/
theorem C4_parse_client_request_dispositions_witness :
    (accept_connection 4096 false 0).state = ConnState.ACCEPTED ∧
    ((-3 : Int) ≤ -2) ∧
    (∃ c', parse_client_request (accept_connection 4096 false 0) (-3) none = some c' ∧
      c'.state = .CLOSED ∧ c'.clientFdOpen = false ∧
      c'.clientWatcher.active = false) :=
  ⟨rfl, by decide,
    ((C4_parse_client_request_dispositions (accept_connection 4096 false 0)
      (-3) none rfl).2.1 (by decide) rfl)⟩

/-! ### C5: backend connect outcomes in RESOLVED -/

/-- C5: in state RESOLVED, once the backend connect is initiated, a connect
error other than EINPROGRESS moves the state directly to SERVER_CLOSED with
the new descriptor closed, while success or EINPROGRESS moves the state to
CONNECTED and arms the server watcher for WRITE. -/
theorem C5_initiate_server_connect (con : Connection) (r : ConnectRes)
    (hst : con.state = .RESOLVED) (hfd : con.serverFdOpen = false) :
    (r = .fatalErr →
      (initiate_server_connect con true r).state = .SERVER_CLOSED ∧
      (initiate_server_connect con true r).serverFdOpen = false) ∧
    (r ≠ .fatalErr →
      (initiate_server_connect con true r).state = .CONNECTED ∧
      (initiate_server_connect con true r).serverWatcher =
        { active := true, events := EV_WRITE } ∧
      (initiate_server_connect con true r).serverFdOpen = true) := by
  constructor
  · intro h
    subst h
    simp [initiate_server_connect, hfd]
  · intro h
    cases r <;> simp_all [initiate_server_connect]

/-- C5 witness: at a concrete RESOLVED connection, an immediate connect
failure yields SERVER_CLOSED with the server descriptor closed. -/
theorem C5_initiate_server_connect_witness :
    ({ accept_connection 4096 false 0 with state := .RESOLVED } :
        Connection).state = ConnState.RESOLVED ∧
    ({ accept_connection 4096 false 0 with state := .RESOLVED } :
        Connection).serverFdOpen = false ∧
    ((initiate_server_connect
        { accept_connection 4096 false 0 with state := .RESOLVED }
        true .fatalErr).state = .SERVER_CLOSED ∧
      (initiate_server_connect
        { accept_connection 4096 false 0 with state := .RESOLVED }
        true .fatalErr).serverFdOpen = false) :=
  ⟨rfl, rfl,
    (C5_initiate_server_connect _ .fatalErr rfl rfl).1 rfl⟩

/-! ### Shared lemmas about the close-half operations -/

/-- Closing the client half preserves fd/state consistency (outside NEW)
and never produces a NEW state; the pointer identity is unchanged. -/
theorem close_client_socket_SockInv (con c' : Connection)
    (hn : con.state ≠ ConnState.NEW) (h : SockInv con)
    (hc : close_client_socket con = some c') :
    SockInv c' ∧ c'.state ≠ ConnState.NEW ∧ c'.id = con.id := by
  obtain ⟨h1, h2⟩ := h
  cases hst : con.state <;>
    simp [close_client_socket, hst] at hc <;>
    (try subst hc) <;>
    simp_all [SockInv, client_socket_open, server_socket_open] <;>
    (try decide)

/-- Closing the server half preserves fd/state consistency (outside NEW)
and never produces a NEW state; the pointer identity is unchanged. -/
theorem close_server_socket_SockInv (con c' : Connection)
    (hn : con.state ≠ ConnState.NEW) (h : SockInv con)
    (hc : close_server_socket con = some c') :
    SockInv c' ∧ c'.state ≠ ConnState.NEW ∧ c'.id = con.id := by
  obtain ⟨h1, h2⟩ := h
  cases hst : con.state <;>
    simp [close_server_socket, hst] at hc <;>
    (try subst hc) <;>
    simp_all [SockInv, client_socket_open, server_socket_open] <;>
    (try decide)

/-- close_connection fails its assert exactly on state NEW. -/
theorem close_connection_none_iff (con : Connection) :
    close_connection con = none ↔ con.state = ConnState.NEW := by
  constructor
  · intro h
    by_contra hne
    cases hst : con.state <;>
      simp_all [close_connection, close_server_socket, close_client_socket]
  · intro h
    simp [close_connection, h]

/-- On a consistent connection not in NEW, close_connection reaches CLOSED
with both descriptors closed. -/
theorem close_connection_spec (con : Connection)
    (h1 : con.state ≠ ConnState.NEW) (h2 : SockInv con) :
    ∃ c', close_connection con = some c' ∧ c'.state = ConnState.CLOSED ∧
      c'.clientFdOpen = false ∧ c'.serverFdOpen = false ∧ c'.id = con.id := by
  obtain ⟨hc, hs⟩ := h2
  cases hst : con.state <;>
    simp_all [close_connection, close_server_socket, close_client_socket,
      client_socket_open, server_socket_open]

/-- free_connections empties the registry, driving every connection to
CLOSED with both halves closed. -/
theorem free_connections_all_closed : ∀ (regs : List Connection),
    (∀ con ∈ regs, con.state ≠ ConnState.NEW ∧ SockInv con) →
    ∃ fs, free_connections regs = some (fs, []) ∧
      fs.length = regs.length ∧
      ∀ c' ∈ fs, c'.state = ConnState.CLOSED ∧ c'.clientFdOpen = false ∧
        c'.serverFdOpen = false
  | [], _ => ⟨[], rfl, rfl, by simp⟩
  | c :: rest, h => by
    obtain ⟨h1, h2⟩ := h c (by simp)
    obtain ⟨c', hc', hstc, hcf, hsf, _⟩ := close_connection_spec c h1 h2
    obtain ⟨fs, hfs, hlen, hall⟩ :=
      free_connections_all_closed rest (fun x hx => h x (by simp [hx]))
    refine ⟨c' :: fs, ?_, by simp [hlen], ?_⟩
    · simp [free_connections, hc', hfs]
    · intro x hx
      rcases List.mem_cons.mp hx with rfl | hx
      · exact ⟨hstc, hcf, hsf⟩
      · exact hall x hx

/-! ### C8: shutdown path -/

/-- C8: free_connections drives every Connection in the registry to CLOSED
(server half closed first when open, then the client half when open), then
destroys it, leaving the registry empty; and close_connection asserts that
the state is not NEW. -/
theorem C8_free_connections_shutdown (regs : List Connection)
    (h : ∀ con ∈ regs, con.state ≠ ConnState.NEW ∧ SockInv con) :
    (∃ fs, free_connections regs = some (fs, []) ∧
      fs.length = regs.length ∧
      ∀ c' ∈ fs, c'.state = ConnState.CLOSED ∧ c'.clientFdOpen = false ∧
        c'.serverFdOpen = false) ∧
    (∀ con : Connection, close_connection con = none ↔
      con.state = ConnState.NEW) :=
  ⟨free_connections_all_closed regs h, close_connection_none_iff⟩

/-- C8 witness: a one-element registry holding a freshly accepted
connection is emptied, the connection reaching CLOSED. -/
theorem C8_free_connections_shutdown_witness :
    (∀ con ∈ [accept_connection 4096 false 0],
      con.state ≠ ConnState.NEW ∧ SockInv con) ∧
    ((∃ fs, free_connections [accept_connection 4096 false 0] = some (fs, []) ∧
      fs.length = [accept_connection 4096 false 0].length ∧
      ∀ c' ∈ fs, c'.state = ConnState.CLOSED ∧ c'.clientFdOpen = false ∧
        c'.serverFdOpen = false) ∧
    (∀ con : Connection, close_connection con = none ↔
      con.state = ConnState.NEW)) :=
  ⟨by decide, C8_free_connections_shutdown _ (by decide)⟩

/-- Everything close_client_socket does to the fields, unconditionally on
success: client watcher stopped, client fd closed, next state CLOSED or
CLIENT_CLOSED, all other fields untouched. -/
theorem close_client_socket_char (con c' : Connection)
    (hc : close_client_socket con = some c') :
    c'.id = con.id ∧ c'.clientFdOpen = false ∧
    c'.serverFdOpen = con.serverFdOpen ∧
    c'.clientBuf = con.clientBuf ∧ c'.serverBuf = con.serverBuf ∧
    c'.serverWatcher = con.serverWatcher ∧
    c'.clientWatcher.active = false ∧
    (c'.state = ConnState.CLOSED ∨ c'.state = ConnState.CLIENT_CLOSED) := by
  unfold close_client_socket at hc
  split at hc
  · exact absurd hc (by simp)
  · injection hc with hc
    subst hc
    refine ⟨rfl, rfl, rfl, rfl, rfl, rfl, rfl, ?_⟩
    split
    · exact Or.inl rfl
    · exact Or.inr rfl

/-- Everything close_server_socket does to the fields, unconditionally on
success: server watcher stopped, server fd closed, next state CLOSED or
SERVER_CLOSED, all other fields untouched. -/
theorem close_server_socket_char (con c' : Connection)
    (hc : close_server_socket con = some c') :
    c'.id = con.id ∧ c'.serverFdOpen = false ∧
    c'.clientFdOpen = con.clientFdOpen ∧
    c'.clientBuf = con.clientBuf ∧ c'.serverBuf = con.serverBuf ∧
    c'.clientWatcher = con.clientWatcher ∧
    c'.serverWatcher.active = false ∧
    (c'.state = ConnState.CLOSED ∨ c'.state = ConnState.SERVER_CLOSED) := by
  unfold close_server_socket at hc
  split at hc
  · exact absurd hc (by simp)
  · injection hc with hc
    subst hc
    refine ⟨rfl, rfl, rfl, rfl, rfl, rfl, rfl, ?_⟩
    split
    · exact Or.inl rfl
    · exact Or.inr rfl

/-- close_socket_of dispatches to the close function of the serviced half. -/
theorem close_socket_of_char (ic : Bool) (con c' : Connection)
    (hc : close_socket_of ic con = some c') :
    c'.id = con.id ∧
    (if ic then c'.clientFdOpen else c'.serverFdOpen) = false ∧
    (c'.state = ConnState.CLOSED ∨
      c'.state = (if ic then ConnState.CLIENT_CLOSED else ConnState.SERVER_CLOSED)) := by
  cases ic
  · obtain ⟨a, b, _, _, _, _, _, d⟩ := close_server_socket_char con c' hc
    exact ⟨a, b, d⟩
  · obtain ⟨a, b, _, _, _, _, _, d⟩ := close_client_socket_char con c' hc
    exact ⟨a, b, d⟩

/-- SockInv transfer for the dispatched close. -/
theorem close_socket_of_SockInv (ic : Bool) (con c' : Connection)
    (hn : con.state ≠ ConnState.NEW) (h : SockInv con)
    (hc : close_socket_of ic con = some c') :
    SockInv c' ∧ c'.state ≠ ConnState.NEW ∧ c'.id = con.id := by
  cases ic
  · exact close_server_socket_SockInv con c' hn h hc
  · exact close_client_socket_SockInv con c' hn h hc

/-- The buffer stores only touch the buffers: every other field survives. -/
theorem set_input_buffer_frame (ic : Bool) (con : Connection) (b : Buffer) :
    (set_input_buffer ic con b).state = con.state ∧
    (set_input_buffer ic con b).clientFdOpen = con.clientFdOpen ∧
    (set_input_buffer ic con b).serverFdOpen = con.serverFdOpen ∧
    (set_input_buffer ic con b).clientWatcher = con.clientWatcher ∧
    (set_input_buffer ic con b).serverWatcher = con.serverWatcher ∧
    (set_input_buffer ic con b).id = con.id ∧
    output_buffer ic (set_input_buffer ic con b) = output_buffer ic con := by
  cases ic <;> simp [set_input_buffer, output_buffer]

/-- The output-buffer store only touches that buffer: every other field
survives, and the input buffer of the serviced half is untouched. -/
theorem set_output_buffer_frame (ic : Bool) (con : Connection) (b : Buffer) :
    (set_output_buffer ic con b).state = con.state ∧
    (set_output_buffer ic con b).clientFdOpen = con.clientFdOpen ∧
    (set_output_buffer ic con b).serverFdOpen = con.serverFdOpen ∧
    (set_output_buffer ic con b).clientWatcher = con.clientWatcher ∧
    (set_output_buffer ic con b).serverWatcher = con.serverWatcher ∧
    (set_output_buffer ic con b).id = con.id ∧
    (set_output_buffer ic con b).fallback = con.fallback ∧
    output_buffer ic (set_output_buffer ic con b) = b := by
  cases ic <;> simp [set_output_buffer, output_buffer]

/-! ### SockInv preservation through each phase of connection_cb -/

/-- The receive phase preserves fd/state consistency. -/
theorem recvStep_SockInv (ic : Bool) (r : RecvRes) (s : CbS)
    (h : SockInv s.con) (hn : s.con.state ≠ ConnState.NEW) :
    SockInv (recvStep ic r s).con ∧
    (recvStep ic r s).con.state ≠ ConnState.NEW := by
  unfold recvStep
  split
  · split
    · cases ic <;>
        simp_all [set_input_buffer, SockInv, client_socket_open,
          server_socket_open]
    · exact ⟨h, hn⟩
    · split
      · rename_i c' heq
        obtain ⟨hs, hn2, _⟩ := close_socket_of_SockInv ic s.con c' hn h heq
        exact ⟨hs, hn2⟩
      · exact ⟨h, hn⟩
    · split
      · rename_i c' heq
        obtain ⟨hs, hn2, _⟩ := close_socket_of_SockInv ic s.con c' hn h heq
        exact ⟨hs, hn2⟩
      · exact ⟨h, hn⟩
  · exact ⟨h, hn⟩

/-- The transmit phase preserves fd/state consistency. -/
theorem sendStep_SockInv (ic : Bool) (r : SendRes) (s : CbS)
    (h : SockInv s.con) (hn : s.con.state ≠ ConnState.NEW) :
    SockInv (sendStep ic r s).con ∧
    (sendStep ic r s).con.state ≠ ConnState.NEW := by
  unfold sendStep
  split
  · exact ⟨h, hn⟩
  · split
    · split
      · cases ic <;>
          simp_all [set_output_buffer, SockInv, client_socket_open,
            server_socket_open]
      · exact ⟨h, hn⟩
      · split
        · rename_i c' heq
          obtain ⟨hs, hn2, _⟩ := close_socket_of_SockInv ic s.con c' hn h heq
          exact ⟨hs, hn2⟩
        · exact ⟨h, hn⟩
    · exact ⟨h, hn⟩

/-- parse_client_request preserves fd/state consistency from ACCEPTED. -/
theorem parse_client_request_SockInv (con c' : Connection) (result : Int)
    (hostname : Option String) (hst : con.state = ConnState.ACCEPTED)
    (h : SockInv con)
    (hp : parse_client_request con result hostname = some c') :
    SockInv c' ∧ c'.state ≠ ConnState.NEW := by
  unfold parse_client_request at hp
  split_ifs at hp
  · injection hp with hp
    subst hp
    exact ⟨h, by rw [hst]; decide⟩
  · obtain ⟨hs, hn2, _⟩ :=
      close_client_socket_SockInv con c' (by rw [hst]; decide) h hp
    exact ⟨hs, hn2⟩
  · obtain ⟨hs, hn2, _⟩ :=
      close_client_socket_SockInv con c' (by rw [hst]; decide) h hp
    exact ⟨hs, hn2⟩
  · injection hp with hp
    subst hp
    obtain ⟨h1, h2⟩ := h
    refine ⟨⟨?_, ?_⟩, by simp⟩ <;>
      simp_all +decide [SockInv, client_socket_open, server_socket_open]

/-- resolve_server_address preserves fd/state consistency from PARSED. -/
theorem resolve_server_address_SockInv (con c' : Connection) (isHost : Bool)
    (hst : con.state = ConnState.PARSED) (h : SockInv con)
    (hp : resolve_server_address con isHost = some c') :
    SockInv c' ∧ c'.state ≠ ConnState.NEW := by
  unfold resolve_server_address at hp
  split_ifs at hp
  · obtain ⟨hs, hn2, _⟩ :=
      close_client_socket_SockInv con c' (by rw [hst]; decide) h hp
    exact ⟨hs, hn2⟩
  · injection hp with hp
    subst hp
    obtain ⟨h1, h2⟩ := h
    refine ⟨⟨?_, ?_⟩, by simp⟩ <;>
      simp_all +decide [SockInv, client_socket_open, server_socket_open]

/-- initiate_server_connect preserves fd/state consistency from RESOLVED. -/
theorem initiate_server_connect_SockInv (con : Connection) (ok : Bool)
    (r : ConnectRes) (hst : con.state = ConnState.RESOLVED)
    (h : SockInv con) :
    SockInv (initiate_server_connect con ok r) ∧
    (initiate_server_connect con ok r).state ≠ ConnState.NEW := by
  obtain ⟨h1, h2⟩ := h
  cases ok <;> cases r <;>
    simp_all +decide [initiate_server_connect, SockInv, client_socket_open,
      server_socket_open]

/-- The ACCEPTED-stage step preserves fd/state consistency. -/
theorem parseStep_SockInv (ic : Bool) (env : Env) (s : CbS)
    (h : SockInv s.con) (hn : s.con.state ≠ ConnState.NEW) :
    SockInv (parseStep ic env s).con ∧
    (parseStep ic env s).con.state ≠ ConnState.NEW := by
  unfold parseStep
  split
  · rename_i hcond
    simp only [Bool.and_eq_true, beq_iff_eq] at hcond
    split
    · rename_i c' heq
      exact parse_client_request_SockInv s.con c' env.parseResult
        env.parseHostname hcond.2 h heq
    · exact ⟨h, hn⟩
  · exact ⟨h, hn⟩

/-- The PARSED-stage step preserves fd/state consistency. -/
theorem resolveStep_SockInv (ic : Bool) (env : Env) (s : CbS)
    (h : SockInv s.con) (hn : s.con.state ≠ ConnState.NEW) :
    SockInv (resolveStep ic env s).con ∧
    (resolveStep ic env s).con.state ≠ ConnState.NEW := by
  unfold resolveStep
  split
  · rename_i hcond
    simp only [Bool.and_eq_true, beq_iff_eq] at hcond
    split
    · rename_i c' heq
      exact resolve_server_address_SockInv s.con c' env.lookupIsHostname
        hcond.2 h heq
    · exact ⟨h, hn⟩
  · exact ⟨h, hn⟩

/-- The RESOLVED-stage step preserves fd/state consistency. -/
theorem connectStep_SockInv (ic : Bool) (env : Env) (s : CbS)
    (h : SockInv s.con) (hn : s.con.state ≠ ConnState.NEW) :
    SockInv (connectStep ic env s).con ∧
    (connectStep ic env s).con.state ≠ ConnState.NEW := by
  unfold connectStep
  split
  · rename_i hcond
    simp only [Bool.and_eq_true, beq_iff_eq] at hcond
    exact initiate_server_connect_SockInv s.con env.socketOk env.connectRes
      hcond.2 h
  · exact ⟨h, hn⟩

/-- The SERVER_CLOSED drain close preserves fd/state consistency. -/
theorem drainClientStep_SockInv (s : CbS)
    (h : SockInv s.con) (hn : s.con.state ≠ ConnState.NEW) :
    SockInv (drainClientStep s).con ∧
    (drainClientStep s).con.state ≠ ConnState.NEW := by
  unfold drainClientStep
  split
  · split
    · rename_i c' heq
      obtain ⟨hs, hn2, _⟩ := close_client_socket_SockInv s.con c' hn h heq
      exact ⟨hs, hn2⟩
    · exact ⟨h, hn⟩
  · exact ⟨h, hn⟩

/-- The CLIENT_CLOSED drain close preserves fd/state consistency. -/
theorem drainServerStep_SockInv (s : CbS)
    (h : SockInv s.con) (hn : s.con.state ≠ ConnState.NEW) :
    SockInv (drainServerStep s).con ∧
    (drainServerStep s).con.state ≠ ConnState.NEW := by
  unfold drainServerStep
  split
  · split
    · rename_i c' heq
      obtain ⟨hs, hn2, _⟩ := close_server_socket_SockInv s.con c' hn h heq
      exact ⟨hs, hn2⟩
    · exact ⟨h, hn⟩
  · exact ⟨h, hn⟩

/-- Watcher reactivation touches only the watchers. -/
theorem reactivateAll_frame (con : Connection) :
    (reactivateAll con).state = con.state ∧
    (reactivateAll con).clientBuf = con.clientBuf ∧
    (reactivateAll con).serverBuf = con.serverBuf ∧
    (reactivateAll con).clientFdOpen = con.clientFdOpen ∧
    (reactivateAll con).serverFdOpen = con.serverFdOpen ∧
    (reactivateAll con).id = con.id := by
  simp only [reactivateAll]
  split_ifs <;> simp

/-- Watcher reactivation preserves fd/state consistency. -/
theorem reactivateAll_SockInv (con : Connection) (h : SockInv con) :
    SockInv (reactivateAll con) := by
  obtain ⟨f1, _, _, f4, f5, _⟩ := reactivateAll_frame con
  obtain ⟨h1, h2⟩ := h
  constructor
  · unfold client_socket_open
    rw [f1, f4, h1]
    rfl
  · unfold server_socket_open
    rw [f1, f5, h2]
    rfl

/-- SockInv is preserved through the receive/transmit/state/drain pipeline
of connection_cb. -/
theorem cb_pipeline_SockInv (ic : Bool) (rev : Nat) (env : Env)
    (con : Connection) (h : SockInv con) (hn : con.state ≠ ConnState.NEW) :
    SockInv (drainStep (stateStep ic env (sendStep ic env.send
      (recvStep ic env.recv ⟨con, rev, false, false⟩)))).con ∧
    (drainStep (stateStep ic env (sendStep ic env.send
      (recvStep ic env.recv ⟨con, rev, false, false⟩)))).con.state ≠
      ConnState.NEW := by
  obtain ⟨h1, hn1⟩ := recvStep_SockInv ic env.recv ⟨con, rev, false, false⟩ h hn
  obtain ⟨h2, hn2⟩ := sendStep_SockInv ic env.send _ h1 hn1
  obtain ⟨h3, hn3⟩ := parseStep_SockInv ic env _ h2 hn2
  obtain ⟨h4, hn4⟩ := resolveStep_SockInv ic env _ h3 hn3
  obtain ⟨h5, hn5⟩ := connectStep_SockInv ic env _ h4 hn4
  obtain ⟨h6, hn6⟩ := drainClientStep_SockInv _ h5 hn5
  obtain ⟨h7, hn7⟩ := drainServerStep_SockInv _ h6 hn6
  exact ⟨h7, hn7⟩

/-- The connection carried out of connection_cb is the pipeline result,
reactivated on the normal return path. -/
theorem connection_cb_con_cases (con : Connection) (ic : Bool) (rev : Nat)
    (env : Env) :
    (connection_cb con ic rev env).con =
      (drainStep (stateStep ic env (sendStep ic env.send
        (recvStep ic env.recv ⟨con, rev, false, false⟩)))).con ∨
    (connection_cb con ic rev env).con =
      reactivateAll (drainStep (stateStep ic env (sendStep ic env.send
        (recvStep ic env.recv ⟨con, rev, false, false⟩)))).con := by
  unfold connection_cb
  dsimp only
  split
  · exact Or.inl rfl
  · split
    · exact Or.inl rfl
    · split
      · exact Or.inr rfl
      · exact Or.inr rfl

/-! ### C1: socket open/closed status is a function of the state tag -/

/-- C1: a freshly accepted Connection satisfies the open-iff-state
invariant (client socket open in exactly ACCEPTED/PARSED/RESOLVED/
CONNECTED/SERVER_CLOSED, server socket open in exactly CONNECTED/
CLIENT_CLOSED, per client_socket_open and server_socket_open), and every
connection_cb transition preserves it, so between reactor callbacks the
open/closed status of each half is a function of the state tag alone. -/
theorem C1_socket_open_state_function :
    (∀ bufSize fallback id,
      SockInv (accept_connection bufSize fallback id) ∧
      (accept_connection bufSize fallback id).state ≠ ConnState.NEW) ∧
    (∀ (con : Connection) (ic : Bool) (rev : Nat) (env : Env),
      SockInv con → con.state ≠ ConnState.NEW →
      SockInv (connection_cb con ic rev env).con ∧
      (connection_cb con ic rev env).con.state ≠ ConnState.NEW) := by
  constructor
  · intro bufSize fallback id
    refine ⟨⟨rfl, rfl⟩, ?_⟩
    intro hx
    simp [accept_connection] at hx
  · intro con ic rev env h hn
    obtain ⟨hs, hn2⟩ := cb_pipeline_SockInv ic rev env con h hn
    rcases connection_cb_con_cases con ic rev env with hc | hc
    · rw [hc]
      exact ⟨hs, hn2⟩
    · rw [hc]
      refine ⟨reactivateAll_SockInv _ hs, ?_⟩
      rw [(reactivateAll_frame _).1]
      exact hn2

/-- C1 witness: the invariant is preserved on a concrete callback that
carries a fresh connection all the way to CONNECTED. -/
theorem C1_socket_open_state_function_witness :
    SockInv (accept_connection 4096 false 0) ∧
    (accept_connection 4096 false 0).state ≠ ConnState.NEW ∧
    SockInv (connection_cb (accept_connection 4096 false 0) true 1
      { recv := .data 99, send := .tempErr, parseResult := 1,
        parseHostname := some "example.com", lookupIsHostname := false,
        socketOk := true, connectRes := .success }).con :=
  ⟨by decide, by decide,
    (C1_socket_open_state_function.2 (accept_connection 4096 false 0) true 1
      { recv := .data 99, send := .tempErr, parseResult := 1,
        parseHostname := some "example.com", lookupIsHostname := false,
        socketOk := true, connectRes := .success }
      (by decide) (by decide)).1⟩

/-! ### Pointer identity is never rewritten by the callback -/

/-- parse_client_request keeps the pointer identity. -/
theorem parse_client_request_id (con c' : Connection) (result : Int)
    (hostname : Option String)
    (hp : parse_client_request con result hostname = some c') :
    c'.id = con.id := by
  unfold parse_client_request at hp
  split_ifs at hp
  · injection hp with hp
    subst hp
    rfl
  · exact (close_client_socket_char con c' hp).1
  · exact (close_client_socket_char con c' hp).1
  · injection hp with hp
    subst hp
    rfl

/-- resolve_server_address keeps the pointer identity. -/
theorem resolve_server_address_id (con c' : Connection) (isHost : Bool)
    (hp : resolve_server_address con isHost = some c') :
    c'.id = con.id := by
  unfold resolve_server_address at hp
  split_ifs at hp
  · exact (close_client_socket_char con c' hp).1
  · injection hp with hp
    subst hp
    rfl

/-- initiate_server_connect keeps the pointer identity. -/
theorem initiate_server_connect_id (con : Connection) (ok : Bool)
    (r : ConnectRes) :
    (initiate_server_connect con ok r).id = con.id := by
  cases ok <;> cases r <;> simp [initiate_server_connect]

/-- The receive phase keeps the pointer identity and the sent flag. -/
theorem recvStep_id (ic : Bool) (r : RecvRes) (s : CbS) :
    (recvStep ic r s).con.id = s.con.id ∧ (recvStep ic r s).sent = s.sent := by
  unfold recvStep
  split
  · split
    · cases ic <;> simp [set_input_buffer]
    · exact ⟨rfl, rfl⟩
    · split
      · rename_i c' heq
        exact ⟨(close_socket_of_char ic s.con c' heq).1, rfl⟩
      · exact ⟨rfl, rfl⟩
    · split
      · rename_i c' heq
        exact ⟨(close_socket_of_char ic s.con c' heq).1, rfl⟩
      · exact ⟨rfl, rfl⟩
  · exact ⟨rfl, rfl⟩

/-- The transmit phase keeps the pointer identity. -/
theorem sendStep_id (ic : Bool) (r : SendRes) (s : CbS) :
    (sendStep ic r s).con.id = s.con.id := by
  unfold sendStep
  split
  · rfl
  · split
    · split
      · cases ic <;> simp [set_output_buffer]
      · rfl
      · split
        · rename_i c' heq
          exact (close_socket_of_char ic s.con c' heq).1
        · rfl
    · rfl

/-- The ACCEPTED-stage step keeps the pointer identity and the sent flag. -/
theorem parseStep_id (ic : Bool) (env : Env) (s : CbS) :
    (parseStep ic env s).con.id = s.con.id ∧
    (parseStep ic env s).sent = s.sent := by
  unfold parseStep
  split
  · split
    · rename_i c' heq
      exact ⟨parse_client_request_id s.con c' env.parseResult
        env.parseHostname heq, rfl⟩
    · exact ⟨rfl, rfl⟩
  · exact ⟨rfl, rfl⟩

/-- The PARSED-stage step keeps the pointer identity and the sent flag. -/
theorem resolveStep_id (ic : Bool) (env : Env) (s : CbS) :
    (resolveStep ic env s).con.id = s.con.id ∧
    (resolveStep ic env s).sent = s.sent := by
  unfold resolveStep
  split
  · split
    · rename_i c' heq
      exact ⟨resolve_server_address_id s.con c' env.lookupIsHostname heq, rfl⟩
    · exact ⟨rfl, rfl⟩
  · exact ⟨rfl, rfl⟩

/-- The RESOLVED-stage step keeps the pointer identity and the sent flag. -/
theorem connectStep_id (ic : Bool) (env : Env) (s : CbS) :
    (connectStep ic env s).con.id = s.con.id ∧
    (connectStep ic env s).sent = s.sent := by
  unfold connectStep
  split
  · exact ⟨initiate_server_connect_id s.con env.socketOk env.connectRes, rfl⟩
  · exact ⟨rfl, rfl⟩

/-- The SERVER_CLOSED drain close keeps the pointer identity and the sent
flag. -/
theorem drainClientStep_id (s : CbS) :
    (drainClientStep s).con.id = s.con.id ∧
    (drainClientStep s).sent = s.sent := by
  unfold drainClientStep
  split
  · split
    · rename_i c' heq
      exact ⟨(close_client_socket_char s.con c' heq).1, rfl⟩
    · exact ⟨rfl, rfl⟩
  · exact ⟨rfl, rfl⟩

/-- The CLIENT_CLOSED drain close keeps the pointer identity and the sent
flag. -/
theorem drainServerStep_id (s : CbS) :
    (drainServerStep s).con.id = s.con.id ∧
    (drainServerStep s).sent = s.sent := by
  unfold drainServerStep
  split
  · split
    · rename_i c' heq
      exact ⟨(close_server_socket_char s.con c' heq).1, rfl⟩
    · exact ⟨rfl, rfl⟩
  · exact ⟨rfl, rfl⟩

/-- The transmit/state/drain tail of the pipeline keeps the pointer
identity. -/
theorem cbSteps_id (ic : Bool) (env : Env) (s : CbS) :
    (drainServerStep (drainClientStep (connectStep ic env (resolveStep ic env
      (parseStep ic env (sendStep ic env.send s)))))).con.id = s.con.id := by
  have h2 := sendStep_id ic env.send s
  have h3 := (parseStep_id ic env (sendStep ic env.send s)).1
  have h4 := (resolveStep_id ic env
    (parseStep ic env (sendStep ic env.send s))).1
  have h5 := (connectStep_id ic env (resolveStep ic env
    (parseStep ic env (sendStep ic env.send s)))).1
  have h6 := (drainClientStep_id (connectStep ic env (resolveStep ic env
    (parseStep ic env (sendStep ic env.send s))))).1
  have h7 := (drainServerStep_id (drainClientStep (connectStep ic env
    (resolveStep ic env (parseStep ic env (sendStep ic env.send s)))))).1
  omega

/-- The whole pipeline keeps the pointer identity. -/
theorem cb_pipeline_id (ic : Bool) (rev : Nat) (env : Env)
    (con : Connection) :
    (drainStep (stateStep ic env (sendStep ic env.send
      (recvStep ic env.recv ⟨con, rev, false, false⟩)))).con.id = con.id := by
  have h1 := (recvStep_id ic env.recv ⟨con, rev, false, false⟩).1
  have h := cbSteps_id ic env (recvStep ic env.recv ⟨con, rev, false, false⟩)
  exact h.trans h1

/-- Every outcome of connection_cb keeps the pointer identity. -/
theorem connection_cb_id (con : Connection) (ic : Bool) (rev : Nat)
    (env : Env) : (connection_cb con ic rev env).con.id = con.id := by
  rcases connection_cb_con_cases con ic rev env with hc | hc <;> rw [hc]
  · exact cb_pipeline_id ic rev env con
  · exact ((reactivateAll_frame _).2.2.2.2.2).trans (cb_pipeline_id ic rev env con)

/-- The freed outcome arises exactly on the CLOSED path: the carried
connection is the pipeline result and its state is CLOSED. -/
theorem connection_cb_freed_char (con : Connection) (ic : Bool) (rev : Nat)
    (env : Env) (c' : Connection) (t : Bool)
    (h : connection_cb con ic rev env = .freed c' t) :
    c'.state = ConnState.CLOSED := by
  unfold connection_cb at h
  dsimp only at h
  split at h
  · exact absurd h (by simp)
  · split at h
    · rename_i hcl
      injection h with h1 _
      rw [← h1]
      exact beq_iff_eq.mp hcl
    · split at h <;> exact absurd h (by simp)

/-- The live outcome arises exactly on the normal return path: the carried
connection is the reactivated pipeline result and its state is not
CLOSED. -/
theorem connection_cb_live_char (con : Connection) (ic : Bool) (rev : Nat)
    (env : Env) (c' : Connection) (t : Bool)
    (h : connection_cb con ic rev env = .live c' t) :
    c' = reactivateAll (drainStep (stateStep ic env (sendStep ic env.send
      (recvStep ic env.recv ⟨con, rev, false, false⟩)))).con ∧
    c'.state ≠ ConnState.CLOSED := by
  unfold connection_cb at h
  dsimp only at h
  split at h
  · exact absurd h (by simp)
  · split at h
    · exact absurd h (by simp)
    · rename_i hcl
      split at h
      · injection h with h1 _
        subst h1
        refine ⟨rfl, ?_⟩
        rw [(reactivateAll_frame _).1]
        simpa using hcl
      · exact absurd h (by simp)

/-! ### Watcher reactivation behaviour -/

/-- reactivate_watcher leaves the watcher active exactly when the desired
event set is non-empty, with exactly that event set registered, and does not
restart a watcher whose registered set already matches. -/
theorem reactivate_watcher_spec (w : Watcher) (i o : Buffer) :
    ((reactivate_watcher w i o).active = (desired_events i o != 0)) ∧
    (desired_events i o ≠ 0 →
      (reactivate_watcher w i o).events = desired_events i o) ∧
    (w.active = true → desired_events i o ≠ 0 →
      desired_events i o = w.events → reactivate_watcher w i o = w) := by
  unfold reactivate_watcher
  by_cases h1 : w.active = true <;>
    by_cases h2 : desired_events i o = 0 <;>
    by_cases h3 : desired_events i o = w.events <;>
    simp_all

/-- Which watcher reactivateAll rebuilds, per half. -/
theorem reactivateAll_watchers (con : Connection) :
    (client_socket_open con = true →
      (reactivateAll con).clientWatcher =
        reactivate_watcher con.clientWatcher con.clientBuf con.serverBuf) ∧
    (client_socket_open con = false →
      (reactivateAll con).clientWatcher = con.clientWatcher) ∧
    (server_socket_open con = true →
      (reactivateAll con).serverWatcher =
        reactivate_watcher con.serverWatcher con.serverBuf con.clientBuf) ∧
    (server_socket_open con = false →
      (reactivateAll con).serverWatcher = con.serverWatcher) := by
  have hmk : ∀ (c : Connection) (w : Watcher),
      server_socket_open { c with clientWatcher := w } =
        server_socket_open c := fun _ _ => rfl
  simp only [reactivateAll]
  by_cases hc : client_socket_open con = true <;>
    by_cases hs : server_socket_open con = true <;>
    simp [hc, hs, hmk]

/-- reactivateAll does not change which halves are open. -/
theorem reactivateAll_open (con : Connection) :
    client_socket_open (reactivateAll con) = client_socket_open con ∧
    server_socket_open (reactivateAll con) = server_socket_open con := by
  unfold client_socket_open server_socket_open
  rw [(reactivateAll_frame con).1]
  exact ⟨rfl, rfl⟩

/-! ### C3: watcher interest equals the desired event set -/

/-- C3: the watcher interest computed by reactivate_watcher is exactly
(READ iff the inbound buffer has room) ∪ (WRITE iff the outbound buffer has
pending bytes): the watcher ends inactive exactly when this set is empty,
ends registered with exactly this set otherwise, and is not restarted when
the registered set already matches; consequently after any connection_cb
that returns normally, each half whose socket is still open carries exactly
this interest. -/
theorem C3_watcher_interest (w : Watcher) (i o : Buffer) :
    ((reactivate_watcher w i o).active = (desired_events i o != 0)) ∧
    (desired_events i o ≠ 0 →
      (reactivate_watcher w i o).events = desired_events i o) ∧
    (w.active = true → desired_events i o ≠ 0 →
      desired_events i o = w.events → reactivate_watcher w i o = w) ∧
    (∀ (con : Connection) (ic : Bool) (rev : Nat) (env : Env)
        (c' : Connection) (t : Bool),
      connection_cb con ic rev env = .live c' t →
      (client_socket_open c' = true →
        c'.clientWatcher.active = (desired_events c'.clientBuf c'.serverBuf != 0) ∧
        (desired_events c'.clientBuf c'.serverBuf ≠ 0 →
          c'.clientWatcher.events = desired_events c'.clientBuf c'.serverBuf)) ∧
      (server_socket_open c' = true →
        c'.serverWatcher.active = (desired_events c'.serverBuf c'.clientBuf != 0) ∧
        (desired_events c'.serverBuf c'.clientBuf ≠ 0 →
          c'.serverWatcher.events = desired_events c'.serverBuf c'.clientBuf))) := by
  obtain ⟨w1, w2, w3⟩ := reactivate_watcher_spec w i o
  refine ⟨w1, w2, w3, ?_⟩
  intro con ic rev env c' t h
  obtain ⟨hc, _⟩ := connection_cb_live_char con ic rev env c' t h
  subst hc
  generalize (drainStep (stateStep ic env (sendStep ic env.send
    (recvStep ic env.recv ⟨con, rev, false, false⟩)))).con = p
  obtain ⟨f1, f2, f3, _⟩ := reactivateAll_frame p
  constructor
  · intro hopen
    have hopen' : client_socket_open p = true := by
      rw [← (reactivateAll_open p).1]
      exact hopen
    have hw := (reactivateAll_watchers p).1 hopen'
    rw [hw, f2, f3]
    obtain ⟨a, b, _⟩ := reactivate_watcher_spec p.clientWatcher p.clientBuf p.serverBuf
    exact ⟨a, b⟩
  · intro hopen
    have hopen' : server_socket_open p = true := by
      rw [← (reactivateAll_open p).2]
      exact hopen
    have hw := (reactivateAll_watchers p).2.2.1 hopen'
    rw [hw, f2, f3]
    obtain ⟨a, b, _⟩ := reactivate_watcher_spec p.serverWatcher p.serverBuf p.clientBuf
    exact ⟨a, b⟩

/-- A relaying CONNECTED connection used in the concrete checks. -/
def exampleConnected : Connection :=
  { state := .CONNECTED,
    clientBuf := { len := 0, size := 4096 },
    serverBuf := { len := 0, size := 4096 },
    clientWatcher := { active := true, events := 1 },
    serverWatcher := { active := true, events := 2 },
    clientFdOpen := true,
    serverFdOpen := true,
    hostname := some "example.com",
    fallback := false,
    id := 3 }

/-- The callback environment shared by the concrete checks. -/
def exampleEnv : Env :=
  { recv := .tempErr, send := .tempErr, parseResult := -1,
    parseHostname := none, lookupIsHostname := false, socketOk := true,
    connectRes := .success }

/-- The live connection produced by servicing exampleConnected with 10
bytes received from the client. -/
def exampleLive : Connection :=
  { exampleConnected with
    clientBuf := { len := 10, size := 4096 },
    serverWatcher := { active := true, events := 3 } }

/-- C3 witness: on a concrete relay callback the server watcher is restarted
with READ|WRITE once the client buffer holds pending bytes. -/
theorem C3_watcher_interest_witness :
    connection_cb exampleConnected true 1 { exampleEnv with recv := .data 9 } =
      .live exampleLive false ∧
    ((client_socket_open exampleLive = true →
      exampleLive.clientWatcher.active =
        (desired_events exampleLive.clientBuf exampleLive.serverBuf != 0) ∧
      (desired_events exampleLive.clientBuf exampleLive.serverBuf ≠ 0 →
        exampleLive.clientWatcher.events =
          desired_events exampleLive.clientBuf exampleLive.serverBuf)) ∧
    (server_socket_open exampleLive = true →
      exampleLive.serverWatcher.active =
        (desired_events exampleLive.serverBuf exampleLive.clientBuf != 0) ∧
      (desired_events exampleLive.serverBuf exampleLive.clientBuf ≠ 0 →
        exampleLive.serverWatcher.events =
          desired_events exampleLive.serverBuf exampleLive.clientBuf))) :=
  ⟨by decide,
    (C3_watcher_interest ⟨true, 1⟩ ⟨0, 4096⟩ ⟨0, 4096⟩).2.2.2
      exampleConnected true 1 { exampleEnv with recv := .data 9 }
      exampleLive false (by decide)⟩

/-! ### C6: the end-of-callback asserts -/

/-- The connection left behind when a full client buffer of an ACCEPTED
connection suppresses all watcher interest. -/
def exampleStalled : Connection :=
  { state := .ACCEPTED,
    clientBuf := { len := 4096, size := 4096 },
    serverBuf := { len := 0, size := 4096 },
    clientWatcher := { active := false, events := 1 },
    serverWatcher := { active := false, events := 0 },
    clientFdOpen := true,
    serverFdOpen := false,
    hostname := none,
    fallback := false,
    id := 0 }

/-- C6: the claim fails on the code at a reachable input.  A freshly
accepted connection whose 4096-byte client buffer fills in one readable
event with bytes the parser finds incomplete (result -1) has no room
(suppressing READ) and an empty server buffer (suppressing WRITE), so
reactivate_watcher stops the client watcher; the server half was never
opened, so no watcher is active and the final assert of connection_cb
(`at least one watcher is still active`) fails, modelled as the abort
outcome: the code aborts (or with NDEBUG stalls the connection forever)
instead of maintaining the claimed condition. -/
theorem C6_watcher_assert_fails_on_full_accepted_buffer :
    connection_cb (accept_connection 4096 false 0) true 1
      { exampleEnv with recv := .data 4095 } = .abort exampleStalled false ∧
    client_socket_open exampleStalled = true ∧
    exampleStalled.clientWatcher.active = false ∧
    exampleStalled.serverWatcher.active = false ∧
    cbAsserts exampleStalled = false := by
  refine ⟨by decide, by decide, rfl, rfl, by decide⟩

/-! ### C7: registry discipline -/

/-- C7: a serviced Connection that reaches CLOSED is removed from the
registry (and freed) before the callback returns, and otherwise it is moved
to the head of the registry; new Connections are inserted at the head, so
the registry is ordered most-recently-active first. -/
theorem C7_registry_discipline (pre post : List Connection)
    (con : Connection) (ic : Bool) (rev : Nat) (env : Env)
    (hid : con.id ∉ (pre ++ post).map Connection.id) :
    (∀ c' t, connection_cb con ic rev env = .freed c' t →
      c'.state = ConnState.CLOSED ∧
      connection_cb_registry pre post con ic rev env = some (pre ++ post) ∧
      con.id ∉ (pre ++ post).map Connection.id) ∧
    (∀ c' t, connection_cb con ic rev env = .live c' t →
      c'.state ≠ ConnState.CLOSED ∧ c'.id = con.id ∧
      connection_cb_registry pre post con ic rev env =
        some (c' :: (pre ++ post))) ∧
    (∀ (regs : List Connection) (bufSize : Nat) (fallback : Bool) (id : Nat),
      accept_connection_registry regs bufSize fallback id =
        accept_connection bufSize fallback id :: regs) := by
  refine ⟨?_, ?_, fun _ _ _ _ => rfl⟩
  · intro c' t h
    refine ⟨connection_cb_freed_char con ic rev env c' t h, ?_, hid⟩
    unfold connection_cb_registry
    rw [h]
  · intro c' t h
    obtain ⟨hc, hne⟩ := connection_cb_live_char con ic rev env c' t h
    refine ⟨hne, ?_, ?_⟩
    · have h1 : c'.id = (reactivateAll (drainStep (stateStep ic env
          (sendStep ic env.send (recvStep ic env.recv
            ⟨con, rev, false, false⟩)))).con).id := by rw [hc]
      rw [h1, (reactivateAll_frame _).2.2.2.2.2]
      exact cb_pipeline_id ic rev env con
    · unfold connection_cb_registry
      rw [h]

/-- A half-closed connection draining its server buffer to the client,
used in the concrete checks. -/
def exampleServerClosed : Connection :=
  { state := .SERVER_CLOSED,
    clientBuf := { len := 0, size := 4096 },
    serverBuf := { len := 1, size := 4096 },
    clientWatcher := { active := true, events := 3 },
    serverWatcher := { active := false, events := 2 },
    clientFdOpen := true,
    serverFdOpen := false,
    hostname := some "example.com",
    fallback := false,
    id := 7 }

/-- C7 witness: a concrete live callback moves the serviced connection to
the head of the registry, keeping its identity and a non-CLOSED state. -/
theorem C7_registry_discipline_witness :
    (exampleConnected.id ∉
      ([] ++ [exampleServerClosed]).map Connection.id) ∧
    (exampleLive.state ≠ ConnState.CLOSED ∧
      exampleLive.id = exampleConnected.id ∧
      connection_cb_registry [] [exampleServerClosed] exampleConnected true 1
        { exampleEnv with recv := .data 9 } =
        some (exampleLive :: ([] ++ [exampleServerClosed]))) :=
  ⟨by decide,
    (C7_registry_discipline [] [exampleServerClosed] exampleConnected true 1
      { exampleEnv with recv := .data 9 } (by decide)).2.1
      exampleLive false (by decide)⟩

/-! ### C10: no send after a receive-phase close -/

/-- Closing the serviced half succeeds whenever that half's state predicate
says the socket is open. -/
theorem close_socket_of_isSome (ic : Bool) (con : Connection)
    (hopen : (if ic then client_socket_open con
      else server_socket_open con) = true) :
    ∃ c', close_socket_of ic con = some c' := by
  cases ic <;>
    cases hst : con.state <;>
    simp_all [close_socket_of, close_client_socket, close_server_socket,
      client_socket_open, server_socket_open]

/-- The receive phase on EOF or a fatal error closes the serviced half and
clears revents. -/
theorem recvStep_close (ic : Bool) (r : RecvRes) (s : CbS) (c' : Connection)
    (hg : (s.rev &&& EV_READ != 0 &&
      buffer_room (input_buffer ic s.con) != 0) = true)
    (hr : r = .eof ∨ r = .fatalErr)
    (hc : close_socket_of ic s.con = some c') :
    recvStep ic r s = { s with con := c', rev := 0 } := by
  unfold recvStep
  rw [if_pos hg]
  rcases hr with rfl | rfl <;> rw [hc]

/-- With revents cleared, the transmit phase does nothing: buffer_send is
not attempted. -/
theorem sendStep_rev_zero (ic : Bool) (r : SendRes) (s : CbS)
    (h : s.rev = 0) : sendStep ic r s = s := by
  simp [sendStep, h, EV_WRITE]

/-- The state-specific logic does nothing outside ACCEPTED, PARSED and
RESOLVED. -/
theorem stateStep_skip (ic : Bool) (env : Env) (s : CbS)
    (h1 : s.con.state ≠ ConnState.ACCEPTED)
    (h2 : s.con.state ≠ ConnState.PARSED)
    (h3 : s.con.state ≠ ConnState.RESOLVED) :
    stateStep ic env s = s := by
  unfold stateStep parseStep resolveStep connectStep
  simp [h1, h2, h3]

/-- The SERVER_CLOSED drain close can only close the client descriptor; the
server descriptor and the sent flag survive. -/
theorem drainClientStep_fds (s : CbS) :
    ((drainClientStep s).con.clientFdOpen = false ∨
      (drainClientStep s).con.clientFdOpen = s.con.clientFdOpen) ∧
    (drainClientStep s).con.serverFdOpen = s.con.serverFdOpen ∧
    (drainClientStep s).sent = s.sent := by
  unfold drainClientStep
  split
  · split
    · rename_i c' heq
      obtain ⟨_, hfd, hsfd, _⟩ := close_client_socket_char s.con c' heq
      exact ⟨Or.inl hfd, hsfd, rfl⟩
    · exact ⟨Or.inr rfl, rfl, rfl⟩
  · exact ⟨Or.inr rfl, rfl, rfl⟩

/-- The CLIENT_CLOSED drain close can only close the server descriptor; the
client descriptor and the sent flag survive. -/
theorem drainServerStep_fds (s : CbS) :
    ((drainServerStep s).con.serverFdOpen = false ∨
      (drainServerStep s).con.serverFdOpen = s.con.serverFdOpen) ∧
    (drainServerStep s).con.clientFdOpen = s.con.clientFdOpen ∧
    (drainServerStep s).sent = s.sent := by
  unfold drainServerStep
  split
  · split
    · rename_i c' heq
      obtain ⟨_, hfd, hcfd, _⟩ := close_server_socket_char s.con c' heq
      exact ⟨Or.inl hfd, hcfd, rfl⟩
    · exact ⟨Or.inr rfl, rfl, rfl⟩
  · exact ⟨Or.inr rfl, rfl, rfl⟩

/-- The sent flag reported by connection_cb is the pipeline's sent flag. -/
theorem connection_cb_sent (con : Connection) (ic : Bool) (rev : Nat)
    (env : Env) :
    (connection_cb con ic rev env).sendAttempted =
      (drainStep (stateStep ic env (sendStep ic env.send
        (recvStep ic env.recv ⟨con, rev, false, false⟩)))).sent := by
  unfold connection_cb
  dsimp only
  split
  · rfl
  · split
    · rfl
    · split <;> rfl

/-- C10: within one connection_cb invocation, if the receive step observes
peer EOF or a fatal receive error, the serviced half's socket is closed,
revents is cleared so buffer_send is never attempted afterwards in the same
invocation, and the descriptor stays closed through the rest of the
callback. -/
theorem C10_no_send_after_recv_close (con : Connection) (ic : Bool)
    (rev : Nat) (env : Env)
    (hopen : (if ic then client_socket_open con
      else server_socket_open con) = true)
    (hread : rev &&& EV_READ ≠ 0)
    (hroom : buffer_room (input_buffer ic con) ≠ 0)
    (hr : env.recv = .eof ∨ env.recv = .fatalErr) :
    (connection_cb con ic rev env).sendAttempted = false ∧
    (if ic then (connection_cb con ic rev env).con.clientFdOpen
      else (connection_cb con ic rev env).con.serverFdOpen) = false := by
  obtain ⟨c', hc⟩ := close_socket_of_isSome ic con hopen
  have hg : ((⟨con, rev, false, false⟩ : CbS).rev &&& EV_READ != 0 &&
      buffer_room (input_buffer ic (⟨con, rev, false, false⟩ : CbS).con)
        != 0) = true := by
    simp [hread, hroom]
  have h1 : recvStep ic env.recv ⟨con, rev, false, false⟩ =
      ⟨c', 0, false, false⟩ :=
    recvStep_close ic env.recv ⟨con, rev, false, false⟩ c' hg hr hc
  have h2 : sendStep ic env.send (⟨c', 0, false, false⟩ : CbS) =
      ⟨c', 0, false, false⟩ :=
    sendStep_rev_zero ic env.send _ rfl
  obtain ⟨hid, hfd, hstc⟩ := close_socket_of_char ic con c' hc
  have hstates : c'.state ≠ ConnState.ACCEPTED ∧
      c'.state ≠ ConnState.PARSED ∧ c'.state ≠ ConnState.RESOLVED := by
    rcases hstc with h | h
    · rw [h]
      exact ⟨by decide, by decide, by decide⟩
    · cases ic <;> rw [h] <;> exact ⟨by decide, by decide, by decide⟩
  have h3 : stateStep ic env (⟨c', 0, false, false⟩ : CbS) =
      ⟨c', 0, false, false⟩ :=
    stateStep_skip ic env _ hstates.1 hstates.2.1 hstates.2.2
  have hpipe : drainStep (stateStep ic env (sendStep ic env.send
      (recvStep ic env.recv ⟨con, rev, false, false⟩))) =
      drainServerStep (drainClientStep ⟨c', 0, false, false⟩) := by
    rw [h1, h2, h3]
    rfl
  obtain ⟨d1, d2, d3⟩ := drainClientStep_fds (⟨c', 0, false, false⟩ : CbS)
  obtain ⟨e1, e2, e3⟩ :=
    drainServerStep_fds (drainClientStep ⟨c', 0, false, false⟩)
  constructor
  · rw [connection_cb_sent con ic rev env, hpipe, e3, d3]
  · have hfinal : (if ic then (drainServerStep (drainClientStep
        (⟨c', 0, false, false⟩ : CbS))).con.clientFdOpen
        else (drainServerStep (drainClientStep
          (⟨c', 0, false, false⟩ : CbS))).con.serverFdOpen) = false := by
      cases ic
      · simp only [if_neg Bool.false_ne_true, if_false]
        rcases e1 with e1 | e1
        · exact e1
        · rw [e1]
          rcases d1 with d1 | d1
          · rw [d2]
            simpa using hfd
          · rw [d2]
            simpa using hfd
      · simp only [if_pos]
        rw [e2]
        rcases d1 with d1 | d1
        · exact d1
        · rw [d1]
          simpa using hfd
    rcases connection_cb_con_cases con ic rev env with hcc | hcc <;>
      rw [hcc, hpipe]
    · exact hfinal
    · obtain ⟨_, _, _, f4, f5, _⟩ := reactivateAll_frame
        (drainServerStep (drainClientStep (⟨c', 0, false, false⟩ : CbS))).con
      cases ic
      · simp only [if_neg Bool.false_ne_true, if_false] at hfinal ⊢
        rw [f5]
        exact hfinal
      · simp only [if_pos] at hfinal ⊢
        rw [f4]
        exact hfinal

/-! ### C2: half-close drain discipline -/

/-- When the receive outcome is neither EOF nor fatal, the receive phase
only (at most) fills the input buffer. -/
theorem recvStep_no_close (ic : Bool) (r : RecvRes) (s : CbS)
    (h1 : r ≠ .eof) (h2 : r ≠ .fatalErr) :
    ∃ b, recvStep ic r s = { s with con := set_input_buffer ic s.con b } := by
  unfold recvStep
  split
  · match r with
    | .data n =>
      exact ⟨buffer_fill (input_buffer ic s.con) (n + 1), rfl⟩
    | .tempErr =>
      exact ⟨input_buffer ic s.con, by cases ic <;> rfl⟩
    | .eof => exact absurd rfl h1
    | .fatalErr => exact absurd rfl h2
  · exact ⟨input_buffer ic s.con, by cases ic <;> rfl⟩

/-- When the send outcome is not fatal, the transmit phase only (at most)
drains the output buffer and records the attempt. -/
theorem sendStep_no_fatal (ic : Bool) (r : SendRes) (s : CbS)
    (h : r ≠ .fatalErr) :
    ∃ b t, sendStep ic r s =
      { s with con := set_output_buffer ic s.con b, sent := t } := by
  unfold sendStep
  split
  · exact ⟨output_buffer ic s.con, s.sent, by cases ic <;> rfl⟩
  · split
    · match r with
      | .sent n =>
        exact ⟨buffer_drain (output_buffer ic s.con) n, true, rfl⟩
      | .tempErr =>
        exact ⟨output_buffer ic s.con, true, by cases ic <;> rfl⟩
      | .fatalErr => exact absurd rfl h
    · exact ⟨output_buffer ic s.con, s.sent, by cases ic <;> rfl⟩

/-- In SERVER_CLOSED the drain step closes the client exactly when the
server buffer is empty. -/
theorem drain_server_closed (s : CbS) (hab : s.aborted = false)
    (hst : s.con.state = ConnState.SERVER_CLOSED) :
    (buffer_len s.con.serverBuf = 0 →
      ∃ c', close_client_socket s.con = some c' ∧
        drainStep s = { s with con := c' } ∧
        c'.state = ConnState.CLOSED ∧ c'.clientFdOpen = false ∧
        c'.serverFdOpen = s.con.serverFdOpen ∧
        c'.serverBuf = s.con.serverBuf) ∧
    (buffer_len s.con.serverBuf ≠ 0 → drainStep s = s) := by
  constructor
  · intro hlen
    have hclose : close_client_socket s.con = some { s.con with
        clientWatcher := { s.con.clientWatcher with active := false },
        clientFdOpen := false, state := ConnState.CLOSED } := by
      simp [close_client_socket, hst]
    refine ⟨_, hclose, ?_, rfl, rfl, rfl, rfl⟩
    unfold drainStep drainClientStep drainServerStep
    simp [hab, hst, hlen, hclose]
  · intro hlen
    unfold drainStep drainClientStep drainServerStep
    simp [hab, hst, hlen]

/-- In CLIENT_CLOSED the drain step closes the server exactly when the
client buffer is empty. -/
theorem drain_client_closed (s : CbS) (hab : s.aborted = false)
    (hst : s.con.state = ConnState.CLIENT_CLOSED) :
    (buffer_len s.con.clientBuf = 0 →
      ∃ c', close_server_socket s.con = some c' ∧
        drainStep s = { s with con := c' } ∧
        c'.state = ConnState.CLOSED ∧ c'.serverFdOpen = false ∧
        c'.clientFdOpen = s.con.clientFdOpen ∧
        c'.clientBuf = s.con.clientBuf) ∧
    (buffer_len s.con.clientBuf ≠ 0 → drainStep s = s) := by
  constructor
  · intro hlen
    have hclose : close_server_socket s.con = some { s.con with
        serverWatcher := { s.con.serverWatcher with active := false },
        serverFdOpen := false, state := ConnState.CLOSED } := by
      simp [close_server_socket, hst]
    refine ⟨_, hclose, ?_, rfl, rfl, rfl, rfl⟩
    unfold drainStep drainClientStep drainServerStep
    simp [hab, hst, hlen, hclose]
  · intro hlen
    unfold drainStep drainClientStep drainServerStep
    simp [hab, hst, hlen]

/-- The state, buffers and descriptor flags reported by any connection_cb
outcome are those of the pipeline result (reactivation only rewrites
watchers). -/
theorem connection_cb_core_fields (con : Connection) (ic : Bool) (rev : Nat)
    (env : Env) :
    (connection_cb con ic rev env).con.state =
      (drainStep (stateStep ic env (sendStep ic env.send
        (recvStep ic env.recv ⟨con, rev, false, false⟩)))).con.state ∧
    (connection_cb con ic rev env).con.clientBuf =
      (drainStep (stateStep ic env (sendStep ic env.send
        (recvStep ic env.recv ⟨con, rev, false, false⟩)))).con.clientBuf ∧
    (connection_cb con ic rev env).con.serverBuf =
      (drainStep (stateStep ic env (sendStep ic env.send
        (recvStep ic env.recv ⟨con, rev, false, false⟩)))).con.serverBuf ∧
    (connection_cb con ic rev env).con.clientFdOpen =
      (drainStep (stateStep ic env (sendStep ic env.send
        (recvStep ic env.recv ⟨con, rev, false, false⟩)))).con.clientFdOpen ∧
    (connection_cb con ic rev env).con.serverFdOpen =
      (drainStep (stateStep ic env (sendStep ic env.send
        (recvStep ic env.recv ⟨con, rev, false, false⟩)))).con.serverFdOpen := by
  rcases connection_cb_con_cases con ic rev env with hc | hc <;> rw [hc]
  · exact ⟨rfl, rfl, rfl, rfl, rfl⟩
  · obtain ⟨f1, f2, f3, f4, f5, _⟩ := reactivateAll_frame _
    exact ⟨f1, f2, f3, f4, f5⟩

/-- The connection left when an early EOF closes the client half of a
SERVER_CLOSED connection whose server buffer still holds a pending byte. -/
def exampleEarlyClosed : Connection :=
  { exampleServerClosed with
    state := .CLOSED,
    clientWatcher := { active := false, events := 3 },
    clientFdOpen := false }

/-- C2 counterexample: in SERVER_CLOSED, a readable event delivering EOF
closes the client socket (state CLOSED) although the server buffer still
holds one pending byte, so "the client socket is closed exactly when the
server buffer has drained to zero pending bytes" is false as stated. -/
theorem C2_counterexample_early_close :
    exampleServerClosed.state = ConnState.SERVER_CLOSED ∧
    connection_cb exampleServerClosed true 1
      { exampleEnv with recv := .eof } = .freed exampleEarlyClosed false ∧
    exampleEarlyClosed.state = ConnState.CLOSED ∧
    exampleEarlyClosed.clientFdOpen = false ∧
    buffer_len exampleEarlyClosed.serverBuf = 1 := by
  decide

/-- C2 amended: in SERVER_CLOSED (serviced from the client watcher), when
the callback's receive and transmit steps finish without EOF or a fatal
error, the client socket is closed — and the state becomes CLOSED — exactly
when the server buffer has drained to zero pending bytes; symmetrically for
CLIENT_CLOSED and the server socket over the client buffer. -/
theorem C2_half_close_drain (con : Connection) (ic : Bool) (rev : Nat)
    (env : Env) (hsock : SockInv con)
    (h1 : env.recv ≠ .eof) (h2 : env.recv ≠ .fatalErr)
    (h3 : env.send ≠ .fatalErr)
    (hcase : (con.state = ConnState.SERVER_CLOSED ∧ ic = true) ∨
      (con.state = ConnState.CLIENT_CLOSED ∧ ic = false)) :
    ((connection_cb con ic rev env).con.state = ConnState.CLOSED ↔
      buffer_len (if ic then (connection_cb con ic rev env).con.serverBuf
        else (connection_cb con ic rev env).con.clientBuf) = 0) ∧
    ((if ic then (connection_cb con ic rev env).con.clientFdOpen
      else (connection_cb con ic rev env).con.serverFdOpen) = false ↔
      buffer_len (if ic then (connection_cb con ic rev env).con.serverBuf
        else (connection_cb con ic rev env).con.clientBuf) = 0) := by
  obtain ⟨core1, core2, core3, core4, core5⟩ :=
    connection_cb_core_fields con ic rev env
  obtain ⟨b1, hb1⟩ :=
    recvStep_no_close ic env.recv ⟨con, rev, false, false⟩ h1 h2
  obtain ⟨b2, t, hb2⟩ := sendStep_no_fatal ic env.send
    (recvStep ic env.recv ⟨con, rev, false, false⟩) h3
  have hcon2 : sendStep ic env.send (recvStep ic env.recv
      ⟨con, rev, false, false⟩) =
      (⟨set_output_buffer ic (set_input_buffer ic con b1) b2, rev, t, false⟩ :
        CbS) := by
    rw [hb2, hb1]
  have hs2 : (set_output_buffer ic (set_input_buffer ic con b1) b2).state =
      con.state := by
    rw [(set_output_buffer_frame ic _ b2).1,
      (set_input_buffer_frame ic con b1).1]
  have hcf2 : (set_output_buffer ic (set_input_buffer ic con b1)
      b2).clientFdOpen = con.clientFdOpen := by
    rw [(set_output_buffer_frame ic _ b2).2.1,
      (set_input_buffer_frame ic con b1).2.1]
  have hsf2 : (set_output_buffer ic (set_input_buffer ic con b1)
      b2).serverFdOpen = con.serverFdOpen := by
    rw [(set_output_buffer_frame ic _ b2).2.2.1,
      (set_input_buffer_frame ic con b1).2.2.1]
  have hob2 : output_buffer ic (set_output_buffer ic
      (set_input_buffer ic con b1) b2) = b2 :=
    (set_output_buffer_frame ic _ b2).2.2.2.2.2.2.2
  rcases hcase with ⟨hst, hic⟩ | ⟨hst, hic⟩ <;> subst hic
  · have hv : (set_output_buffer true (set_input_buffer true con b1)
        b2).serverBuf = b2 := hob2
    have hstc2 : ((⟨set_output_buffer true (set_input_buffer true con b1) b2,
        rev, t, false⟩ : CbS)).con.state = ConnState.SERVER_CLOSED :=
      hs2.trans hst
    have hskip : stateStep true env
        (⟨set_output_buffer true (set_input_buffer true con b1) b2,
          rev, t, false⟩ : CbS) =
        ⟨set_output_buffer true (set_input_buffer true con b1) b2,
          rev, t, false⟩ :=
      stateStep_skip true env _ (by rw [hstc2]; decide)
        (by rw [hstc2]; decide) (by rw [hstc2]; decide)
    have hpipe : drainStep (stateStep true env (sendStep true env.send
        (recvStep true env.recv ⟨con, rev, false, false⟩))) =
        drainStep (⟨set_output_buffer true (set_input_buffer true con b1) b2,
          rev, t, false⟩ : CbS) := by
      rw [hcon2, hskip]
    have hds := drain_server_closed
      (⟨set_output_buffer true (set_input_buffer true con b1) b2,
        rev, t, false⟩ : CbS) rfl hstc2
    by_cases hlen : buffer_len b2 = 0
    · obtain ⟨R, hclose, hdrain, hRst, hRcf, hRsf, hRsb⟩ :=
        hds.1 (by rw [show ((⟨set_output_buffer true
          (set_input_buffer true con b1) b2, rev, t, false⟩ :
            CbS)).con.serverBuf = b2 from hv]; exact hlen)
      have hstate : (connection_cb con true rev env).con.state =
          ConnState.CLOSED := by
        rw [core1, hpipe, hdrain]
        exact hRst
      have hbuf : (connection_cb con true rev env).con.serverBuf = b2 := by
        rw [core3, hpipe, hdrain]
        exact hRsb.trans hv
      have hfd : (connection_cb con true rev env).con.clientFdOpen =
          false := by
        rw [core4, hpipe, hdrain]
        exact hRcf
      constructor
      · simp [hstate, hbuf, hlen]
      · simp [hfd, hbuf, hlen]
    · have hdrain := hds.2 (by rw [show ((⟨set_output_buffer true
          (set_input_buffer true con b1) b2, rev, t, false⟩ :
            CbS)).con.serverBuf = b2 from hv]; exact hlen)
      have hstate : (connection_cb con true rev env).con.state =
          ConnState.SERVER_CLOSED := by
        rw [core1, hpipe, hdrain]
        exact hstc2
      have hbuf : (connection_cb con true rev env).con.serverBuf = b2 := by
        rw [core3, hpipe, hdrain]
        exact hv
      have hfd : (connection_cb con true rev env).con.clientFdOpen =
          true := by
        rw [core4, hpipe, hdrain]
        have : (set_output_buffer true (set_input_buffer true con b1)
            b2).clientFdOpen = con.clientFdOpen := hcf2
        rw [this, hsock.1]
        unfold client_socket_open
        rw [hst]
        rfl
      constructor
      · simp [hstate, hbuf, hlen]
      · simp [hfd, hbuf, hlen]
  · have hv : (set_output_buffer false (set_input_buffer false con b1)
        b2).clientBuf = b2 := hob2
    have hstc2 : ((⟨set_output_buffer false (set_input_buffer false con b1)
        b2, rev, t, false⟩ : CbS)).con.state = ConnState.CLIENT_CLOSED :=
      hs2.trans hst
    have hskip : stateStep false env
        (⟨set_output_buffer false (set_input_buffer false con b1) b2,
          rev, t, false⟩ : CbS) =
        ⟨set_output_buffer false (set_input_buffer false con b1) b2,
          rev, t, false⟩ :=
      stateStep_skip false env _ (by rw [hstc2]; decide)
        (by rw [hstc2]; decide) (by rw [hstc2]; decide)
    have hpipe : drainStep (stateStep false env (sendStep false env.send
        (recvStep false env.recv ⟨con, rev, false, false⟩))) =
        drainStep (⟨set_output_buffer false (set_input_buffer false con b1)
          b2, rev, t, false⟩ : CbS) := by
      rw [hcon2, hskip]
    have hds := drain_client_closed
      (⟨set_output_buffer false (set_input_buffer false con b1) b2,
        rev, t, false⟩ : CbS) rfl hstc2
    by_cases hlen : buffer_len b2 = 0
    · obtain ⟨R, hclose, hdrain, hRst, hRsf, hRcf, hRcb⟩ :=
        hds.1 (by rw [show ((⟨set_output_buffer false
          (set_input_buffer false con b1) b2, rev, t, false⟩ :
            CbS)).con.clientBuf = b2 from hv]; exact hlen)
      have hstate : (connection_cb con false rev env).con.state =
          ConnState.CLOSED := by
        rw [core1, hpipe, hdrain]
        exact hRst
      have hbuf : (connection_cb con false rev env).con.clientBuf = b2 := by
        rw [core2, hpipe, hdrain]
        exact hRcb.trans hv
      have hfd : (connection_cb con false rev env).con.serverFdOpen =
          false := by
        rw [core5, hpipe, hdrain]
        exact hRsf
      constructor
      · simp [hstate, hbuf, hlen]
      · simp [hfd, hbuf, hlen]
    · have hdrain := hds.2 (by rw [show ((⟨set_output_buffer false
          (set_input_buffer false con b1) b2, rev, t, false⟩ :
            CbS)).con.clientBuf = b2 from hv]; exact hlen)
      have hstate : (connection_cb con false rev env).con.state =
          ConnState.CLIENT_CLOSED := by
        rw [core1, hpipe, hdrain]
        exact hstc2
      have hbuf : (connection_cb con false rev env).con.clientBuf = b2 := by
        rw [core2, hpipe, hdrain]
        exact hv
      have hfd : (connection_cb con false rev env).con.serverFdOpen =
          true := by
        rw [core5, hpipe, hdrain]
        have : (set_output_buffer false (set_input_buffer false con b1)
            b2).serverFdOpen = con.serverFdOpen := hsf2
        rw [this, hsock.2]
        unfold server_socket_open
        rw [hst]
        rfl
      constructor
      · simp [hstate, hbuf, hlen]
      · simp [hfd, hbuf, hlen]

/-- C2 witness: a concrete SERVER_CLOSED connection whose last pending
server-buffer byte is written out closes the client and reaches CLOSED. -/
theorem C2_half_close_drain_witness :
    SockInv exampleServerClosed ∧
    (((connection_cb exampleServerClosed true 2
        { exampleEnv with send := .sent 1 }).con.state = ConnState.CLOSED ↔
      buffer_len (if true then (connection_cb exampleServerClosed true 2
        { exampleEnv with send := .sent 1 }).con.serverBuf
        else (connection_cb exampleServerClosed true 2
          { exampleEnv with send := .sent 1 }).con.clientBuf) = 0) ∧
    ((if true then (connection_cb exampleServerClosed true 2
        { exampleEnv with send := .sent 1 }).con.clientFdOpen
      else (connection_cb exampleServerClosed true 2
        { exampleEnv with send := .sent 1 }).con.serverFdOpen) = false ↔
      buffer_len (if true then (connection_cb exampleServerClosed true 2
        { exampleEnv with send := .sent 1 }).con.serverBuf
        else (connection_cb exampleServerClosed true 2
          { exampleEnv with send := .sent 1 }).con.clientBuf) = 0)) :=
  ⟨by decide,
    C2_half_close_drain exampleServerClosed true 2
      { exampleEnv with send := .sent 1 } (by decide) (by decide)
      (by decide) (by decide) (Or.inl ⟨rfl, rfl⟩)⟩

/-- The environment of a callback that sees EOF on the receive and would
fail fatally on any send. -/
def exampleEnvEof : Env :=
  { exampleEnv with recv := .eof, send := .fatalErr }

/-- C10 witness: a CONNECTED connection whose client delivers EOF on a
readable+writable event closes the client half and never attempts the
send, even though write-readiness was pending. -/
theorem C10_no_send_after_recv_close_witness :
    ((if true then client_socket_open exampleConnected
      else server_socket_open exampleConnected) = true) ∧
    ((3 : Nat) &&& EV_READ ≠ 0) ∧
    (buffer_room (input_buffer true exampleConnected) ≠ 0) ∧
    ((connection_cb exampleConnected true 3 exampleEnvEof).sendAttempted =
      false ∧
    (if true then
      (connection_cb exampleConnected true 3 exampleEnvEof).con.clientFdOpen
      else (connection_cb exampleConnected true 3
        exampleEnvEof).con.serverFdOpen) = false) :=
  ⟨by decide, by decide, by decide,
    C10_no_send_after_recv_close exampleConnected true 3 exampleEnvEof
      (by decide) (by decide) (by decide) (Or.inl rfl)⟩

end Sniproxy
